import Mathlib

/-!
Shallow embedding of the NOUN portal localStorage database layer
(`src/db.js`).  The mutable localStorage collections become fields of an
explicit `DBState` value that every operation threads; the `uid()`
generator becomes a `nextId` counter (each `uid()` call returns the
counter and increments it), and `now()` becomes the state's `time`
field (the clock reading during a call).  JavaScript numbers are
modelled as exact rationals (`ℚ`) for scores and integers for units and
grade points; thrown errors become `Except`-style results paired with
the (unchanged) state.
-/

namespace NounDB

/-- USERS record: { id, username, password, role, name, email, phone, createdAt }. -/
structure User where
  id : Nat
  username : String
  password : String
  role : String
  name : String
  email : String
  phone : String
  createdAt : String
  deriving Repr, DecidableEq

/-- STUDENTS record: { id, userId, matric, department, level, studyCenter }. -/
structure Student where
  id : Nat
  userId : Nat
  matric : String
  department : String
  level : String
  studyCenter : String
  deriving Repr, DecidableEq

/-- LECTURERS record: { id, userId, staffId, department }. -/
structure Lecturer where
  id : Nat
  userId : Nat
  staffId : String
  department : String
  deriving Repr, DecidableEq

/-- COURSES record: { id, code, title, units, lecturerId }.
`lecturerId` is `none` for the empty-string sentinel `lecturerId||''`. -/
structure Course where
  id : Nat
  code : String
  title : String
  units : Int
  lecturerId : Option Nat
  deriving Repr, DecidableEq

/-- ENROLLMENTS record: { id, studentId, courseId, semester, date }. -/
structure Enrollment where
  id : Nat
  studentId : Nat
  courseId : Nat
  semester : String
  date : String
  deriving Repr, DecidableEq

/-- RESULTS record: { id, studentId, courseId, score, grade, semester, updatedAt, updatedBy }. -/
structure Result where
  id : Nat
  studentId : Nat
  courseId : Nat
  score : ℚ
  grade : String
  semester : String
  updatedAt : String
  updatedBy : String
  deriving Repr, DecidableEq

/-- AUDIT_TRAIL record: { id, ts, actorId, actorName, studentId, courseId, oldGrade, newGrade, reason }. -/
structure AuditEntry where
  id : Nat
  ts : String
  actorId : Nat
  actorName : String
  studentId : Nat
  courseId : Nat
  oldGrade : String
  newGrade : String
  reason : String
  deriving Repr, DecidableEq

/-- FEEDBACK record: { id, userId, userName, role, easeOfUse, speed, satisfaction, comments, submittedAt }. -/
structure Feedback where
  id : Nat
  userId : Nat
  userName : String
  role : String
  easeOfUse : Int
  speed : Int
  satisfaction : Int
  comments : String
  submittedAt : String
  deriving Repr, DecidableEq

/-- The whole localStorage database: one list per `noun_*` collection key,
plus the `uid()` counter and the current `now()` clock reading. -/
structure DBState where
  nextId : Nat
  time : String
  users : List User
  students : List Student
  lecturers : List Lecturer
  courses : List Course
  enrollments : List Enrollment
  results : List Result
  feedback : List Feedback
  auditTrail : List AuditEntry
  deriving Repr, DecidableEq

/-- `uid()`: returns a fresh identifier and the state with the counter bumped. -/
def uid (st : DBState) : Nat × DBState :=
  (st.nextId, { st with nextId := st.nextId + 1 })

/-- `scoreToGrade = s => s>=70?'A':s>=60?'B':s>=50?'C':s>=40?'D':'F'`. -/
def scoreToGrade (s : ℚ) : String :=
  if s ≥ 70 then "A" else if s ≥ 60 then "B" else if s ≥ 50 then "C"
  else if s ≥ 40 then "D" else "F"

/-- `addAuditEntry`: pushes `{ id:uid(), ts:now(), ...fields }` onto the trail. -/
def addAuditEntry (actorId : Nat) (actorName : String) (studentId courseId : Nat)
    (oldGrade newGrade reason : String) (st : DBState) : DBState :=
  let (aid, st1) := uid st
  { st1 with auditTrail := st1.auditTrail ++
      [⟨aid, st.time, actorId, actorName, studentId, courseId, oldGrade, newGrade, reason⟩] }

/-- `enroll(studentId, courseId, semester)`: no-op when the pair is already
enrolled, else pushes a new Enrollment (the date is `now()`'s date part). -/
def enroll (studentId courseId : Nat) (semester : String) (st : DBState) : DBState :=
  match st.enrollments.find? (fun e => e.studentId == studentId && e.courseId == courseId) with
  | some _ => st
  | none =>
    let (eid, st1) := uid st
    { st1 with enrollments := st1.enrollments ++
        [⟨eid, studentId, courseId, semester, st.time⟩] }

/-- Replace the first element satisfying `p` by its image under `f`
(JavaScript `array.find` followed by in-place mutation of the found object). -/
def updateFirst (p : α → Bool) (f : α → α) : List α → List α
  | [] => []
  | a :: as => if p a then f a :: as else a :: updateFirst p f as

/-- `upsertResult(studentId, courseId, score, actorUser)`: update the existing
Result in place and audit "Grade updated", or push a new Result, implicitly
`enroll`, and audit "Result entered" with the `'—'` sentinel. -/
def upsertResult (studentId courseId : Nat) (score : ℚ) (actor : User)
    (st : DBState) : DBState :=
  let newGrade := scoreToGrade score
  match st.results.find? (fun r => r.studentId == studentId && r.courseId == courseId) with
  | some existing =>
    let oldGrade := existing.grade
    let newResults :=
      updateFirst (fun r => r.studentId == studentId && r.courseId == courseId)
        (fun r => { r with score := score, grade := newGrade,
                           updatedAt := st.time, updatedBy := actor.name })
        st.results
    let st1 := { st with results := newResults }
    addAuditEntry actor.id actor.name studentId courseId oldGrade newGrade "Grade updated" st1
  | none =>
    let (rid, st1) := uid st
    let st2 := { st1 with results := st1.results ++
      [⟨rid, studentId, courseId, score, newGrade, "2024/2025", st.time, actor.name⟩] }
    let st3 := enroll studentId courseId "2024/2025" st2
    addAuditEntry actor.id actor.name studentId courseId "—" newGrade "Result entered" st3

/-- `getResultsForStudent`. -/
def getResultsForStudent (studentId : Nat) (st : DBState) : List Result :=
  st.results.filter (fun r => r.studentId == studentId)

/-- `getCourseById`. -/
def getCourseById (id : Nat) (st : DBState) : Option Course :=
  st.courses.find? (fun c => c.id == id)

/-- `gp = {A:5,B:4,C:3,D:2,F:0}` looked up as `gp[r.grade]||0`
(an unknown letter yields `undefined||0 = 0`). -/
def gradePoints (g : String) : Int :=
  if g = "A" then 5 else if g = "B" then 4 else if g = "C" then 3
  else if g = "D" then 2 else 0

/-- `const u = c ? c.units : 3` — a dangling courseId falls back to 3 units. -/
def resultUnits (st : DBState) (r : Result) : Int :=
  match getCourseById r.courseId st with
  | some c => c.units
  | none => 3

/-- `Number.prototype.toFixed(2)` on an exact rational: round to the nearest
hundredth, ties away from zero, and print with exactly two decimals. -/
def toFixed2 (q : ℚ) : String :=
  let n : Int := if q ≥ 0 then ⌊q * 100 + 1/2⌋ else -⌊(-q) * 100 + 1/2⌋
  let sign := if n < 0 then "-" else ""
  let m := n.natAbs
  let frac := m % 100
  sign ++ toString (m / 100) ++ "." ++ (if frac < 10 then "0" else "") ++ toString frac

/-- `calcGPA(studentId)`: "0.00" on no results; otherwise accumulate
`pts += (gp[r.grade]||0)*u; units += u` over the student's results and
return `units ? (pts/units).toFixed(2) : '0.00'`. -/
def calcGPA (studentId : Nat) (st : DBState) : String :=
  let res := getResultsForStudent studentId st
  if res.isEmpty then "0.00"
  else
    let acc := res.foldl
      (fun (pu : Int × Int) r =>
        let u := resultUnits st r
        (pu.1 + gradePoints r.grade * u, pu.2 + u))
      (0, 0)
    if acc.2 = 0 then "0.00" else toFixed2 ((acc.1 : ℚ) / (acc.2 : ℚ))

/-- The fields passed to `addStudent`; the empty string plays the role of an
absent/falsy value for the `email||…`, `phone||''`, `studyCenter||'Main Campus'`
defaults. -/
structure StudentFields where
  name : String
  username : String
  password : String
  email : String
  phone : String
  matric : String
  department : String
  level : String
  studyCenter : String
  deriving Repr, DecidableEq

/-- `addStudent(fields)`: duplicate-username and duplicate-matric checks happen
before any write; on success a User (role "student") and a linked Student are
pushed and the new studentId returned.  A thrown error is the `.error` result
paired with the untouched state. -/
def addStudent (f : StudentFields) (st : DBState) : Except String Nat × DBState :=
  if (st.users.find? (fun u => u.username == f.username)).isSome then
    (.error "Username already exists.", st)
  else if (st.students.find? (fun s => s.matric == f.matric)).isSome then
    (.error "Matric number already exists.", st)
  else
    let (userId, st1) := uid st
    let newUser : User :=
      { id := userId, username := f.username, password := f.password,
        role := "student", name := f.name,
        email := if f.email = "" then f.username ++ "@noun.edu.ng" else f.email,
        phone := f.phone, createdAt := st.time }
    let st2 := { st1 with users := st1.users ++ [newUser] }
    let (studentId, st3) := uid st2
    let newStudent : Student :=
      { id := studentId, userId := userId, matric := f.matric,
        department := f.department, level := f.level,
        studyCenter := if f.studyCenter = "" then "Main Campus" else f.studyCenter }
    (.ok studentId, { st3 with students := st3.students ++ [newStudent] })

/-- JavaScript `parseInt` on a string: skip leading whitespace, optional sign,
then the maximal run of decimal digits; `none` models `NaN`. -/
def jsParseInt (s : String) : Option Int :=
  let cs := (s.toList.dropWhile Char.isWhitespace)
  let signRest : Int × List Char :=
    match cs with
    | '-' :: r => (-1, r)
    | '+' :: r => (1, r)
    | r => (1, r)
  let ds := signRest.2.takeWhile Char.isDigit
  if ds.isEmpty then none
  else some (signRest.1 * (ds.foldl (fun n c => n * 10 + (c.toNat - '0'.toNat)) (0 : Nat) : Nat))

/-- The fields passed to `addCourse`; `units` arrives as raw text to be run
through `parseInt`, and `lecturerId` is `none` for a falsy value. -/
structure CourseFields where
  code : String
  title : String
  units : String
  lecturerId : Option Nat
  deriving Repr, DecidableEq

/-- `units:parseInt(units)||3` — `NaN` and `0` are both falsy, so they fall
back to 3; any other parsed integer (including negatives) is kept. -/
def courseUnitsOf (units : String) : Int :=
  match jsParseInt units with
  | none => 3
  | some n => if n = 0 then 3 else n

/-- `addCourse(fields)`: duplicate-code check, then push
`{ id, code, title, units:parseInt(units)||3, lecturerId:lecturerId||'' }`. -/
def addCourse (f : CourseFields) (st : DBState) : Except String Nat × DBState :=
  if (st.courses.find? (fun c => c.code == f.code)).isSome then
    (.error "Course code already exists.", st)
  else
    let (id, st1) := uid st
    (.ok id, { st1 with courses := st1.courses ++
      [⟨id, f.code, f.title, courseUnitsOf f.units, f.lecturerId⟩] })

/-- The fields passed to `submitFeedback`. -/
structure FeedbackFields where
  userId : Nat
  userName : String
  role : String
  easeOfUse : Int
  speed : Int
  satisfaction : Int
  comments : String
  deriving Repr, DecidableEq

/-- `submitFeedback(fields)`: build a brand-new entry (fresh id, `now()`
timestamp); replace the first existing record with this userId in place, or
append when there is none. -/
def submitFeedback (f : FeedbackFields) (st : DBState) : DBState :=
  let (fid, st1) := uid st
  let entry : Feedback :=
    { id := fid, userId := f.userId, userName := f.userName, role := f.role,
      easeOfUse := f.easeOfUse, speed := f.speed, satisfaction := f.satisfaction,
      comments := f.comments, submittedAt := st.time }
  match st.feedback.findIdx? (fun fb => fb.userId == f.userId) with
  | some i => { st1 with feedback := st1.feedback.set i entry }
  | none => { st1 with feedback := st1.feedback ++ [entry] }

/-- `getUserFeedback(userId)`. -/
def getUserFeedback (userId : Nat) (st : DBState) : Option Feedback :=
  st.feedback.find? (fun f => f.userId == userId)

/-- The object `{ ...s, ...u, studentId }` built by `studentFullProfile`:
student fields spread first, then the user's (when found — spreading
`undefined` adds nothing, hence the `Option` user fields).  The only
colliding key is `id`. -/
structure StudentProfile where
  id : Nat
  userId : Nat
  matric : String
  department : String
  level : String
  studyCenter : String
  username : Option String
  password : Option String
  role : Option String
  name : Option String
  email : Option String
  phone : Option String
  createdAt : Option String
  studentId : Nat
  deriving Repr, DecidableEq

/-- `getUserById`. -/
def getUserById (id : Nat) (st : DBState) : Option User :=
  st.users.find? (fun u => u.id == id)

/-- `studentFullProfile(studentId)`: `null` when the student is missing, else
`{ ...s, ...u, studentId }` — because the user is spread LAST, on the `id`
collision the user's id overwrites the student's. -/
def studentFullProfile (studentId : Nat) (st : DBState) : Option StudentProfile :=
  match st.students.find? (fun s => s.id == studentId) with
  | none => none
  | some s =>
    let u := getUserById s.userId st
    some
      { id := match u with | some u => u.id | none => s.id,
        userId := s.userId, matric := s.matric, department := s.department,
        level := s.level, studyCenter := s.studyCenter,
        username := u.map (·.username), password := u.map (·.password),
        role := u.map (·.role), name := u.map (·.name),
        email := u.map (·.email), phone := u.map (·.phone),
        createdAt := u.map (·.createdAt), studentId := studentId }

/-- The object `{ ...l, ...u, lecturerId }` built by `lecturerFullProfile`. -/
structure LecturerProfile where
  id : Nat
  userId : Nat
  staffId : String
  department : String
  username : Option String
  password : Option String
  role : Option String
  name : Option String
  email : Option String
  phone : Option String
  createdAt : Option String
  lecturerId : Nat
  deriving Repr, DecidableEq

/-- `lecturerFullProfile(lecturerId)`: `null` when the lecturer is missing,
else `{ ...l, ...u, lecturerId }` — the user is spread LAST, so the user's id
wins the `id` collision. -/
def lecturerFullProfile (lecturerId : Nat) (st : DBState) : Option LecturerProfile :=
  match st.lecturers.find? (fun l => l.id == lecturerId) with
  | none => none
  | some l =>
    let u := getUserById l.userId st
    some
      { id := match u with | some u => u.id | none => l.id,
        userId := l.userId, staffId := l.staffId, department := l.department,
        username := u.map (·.username), password := u.map (·.password),
        role := u.map (·.role), name := u.map (·.name),
        email := u.map (·.email), phone := u.map (·.phone),
        createdAt := u.map (·.createdAt), lecturerId := lecturerId }

/-- `allStudentsWithProfiles()`: here the comment in the source says
"Spread user first, then student — so student's own `id` wins over user's
`id`": `{ ...u, ...s, studentId: s.id }`, so `id` is the STUDENT's id. -/
def allStudentsWithProfiles (st : DBState) : List StudentProfile :=
  st.students.map (fun s =>
    let u := getUserById s.userId st
    { id := s.id,
      userId := s.userId, matric := s.matric, department := s.department,
      level := s.level, studyCenter := s.studyCenter,
      username := u.map (·.username), password := u.map (·.password),
      role := u.map (·.role), name := u.map (·.name),
      email := u.map (·.email), phone := u.map (·.phone),
      createdAt := u.map (·.createdAt), studentId := s.id })

/-- Number of Enrollment records for a given (studentId, courseId) pair. -/
def countEnrollments (studentId courseId : Nat) (st : DBState) : Nat :=
  (st.enrollments.filter (fun e => e.studentId == studentId && e.courseId == courseId)).length

/-- An empty database (no records, counter at 0), used for concrete scenarios. -/
def stEmpty : DBState :=
  { nextId := 0, time := "2024-01-01 00:00:00", users := [], students := [],
    lecturers := [], courses := [], enrollments := [], results := [],
    feedback := [], auditTrail := [] }

/-- A concrete lecturer user acting as the grade-entering actor in scenarios. -/
def actorA : User :=
  { id := 90, username := "lect", password := "pw", role := "lecturer",
    name := "Dr. A", email := "a@noun.edu.ng", phone := "", createdAt := "t0" }

/-- Spec-side weighted grade points: sum over the student's results of
grade points times the course's units (3 when the course is missing). -/
def weightedPoints (studentId : Nat) (st : DBState) : Int :=
  ((getResultsForStudent studentId st).map (fun r => gradePoints r.grade * resultUnits st r)).sum

/-- Spec-side total units: sum over the student's results of the course's
units (3 when the course is missing). -/
def totalUnits (studentId : Nat) (st : DBState) : Int :=
  ((getResultsForStudent studentId st).map (fun r => resultUnits st r)).sum

/-- Concrete user linked to both the concrete student and lecturer below. -/
def u100 : User :=
  { id := 100, username := "jdoe", password := "pw", role := "student",
    name := "J. Doe", email := "j@noun.edu.ng", phone := "", createdAt := "t0" }

/-- Concrete student whose own id (200) differs from the linked user's id (100). -/
def s200 : Student :=
  { id := 200, userId := 100, matric := "NOU123", department := "CS",
    level := "200", studyCenter := "Main Campus" }

/-- Concrete lecturer whose own id (201) differs from the linked user's id (100). -/
def l201 : Lecturer :=
  { id := 201, userId := 100, staffId := "STAFF-1", department := "CS" }

/-- Database used to evaluate the profile merges. -/
def stProfiles : DBState :=
  { stEmpty with users := [u100], students := [s200], lecturers := [l201] }

/-- Concrete 3-unit and 2-unit courses for the GPA example. -/
def c10 : Course := { id := 10, code := "CSC101", title := "Intro", units := 3, lecturerId := none }

def c11 : Course := { id := 11, code := "MTH101", title := "Calc", units := 2, lecturerId := none }

/-- Student 1's grade-A result in the 3-unit course. -/
def r20 : Result :=
  { id := 20, studentId := 1, courseId := 10, score := 75, grade := "A",
    semester := "2024/2025", updatedAt := "t1", updatedBy := "Dr. A" }

/-- Student 1's grade-C result in the 2-unit course. -/
def r21 : Result :=
  { id := 21, studentId := 1, courseId := 11, score := 55, grade := "C",
    semester := "2024/2025", updatedAt := "t1", updatedBy := "Dr. A" }

/-- Database for the worked GPA example: (3 units, A) and (2 units, C). -/
def stGPA : DBState := { stEmpty with courses := [c10, c11], results := [r20, r21] }

/-- A 2-unit course referenced by one of student 2's results. -/
def c12 : Course := { id := 12, code := "PHY101", title := "Phys", units := 2, lecturerId := none }

/-- Student 2's grade-A result in the existing 2-unit course. -/
def r30 : Result :=
  { id := 30, studentId := 2, courseId := 12, score := 80, grade := "A",
    semester := "2024/2025", updatedAt := "t1", updatedBy := "Dr. A" }

/-- Student 2's result with an unknown grade letter and a dangling courseId. -/
def r31 : Result :=
  { id := 31, studentId := 2, courseId := 99, score := 80, grade := "X",
    semester := "2024/2025", updatedAt := "t1", updatedBy := "Dr. A" }

/-- Database exercising the calcGPA fallbacks: one normal result plus one with
a missing course and an out-of-range grade letter. -/
def stMixed : DBState := { stEmpty with courses := [c12], results := [r30, r31] }

/-- The `entry` object built by `submitFeedback`: a brand-new record with a
fresh id and the current clock reading. -/
def feedbackEntry (f : FeedbackFields) (st : DBState) : Feedback :=
  { id := st.nextId, userId := f.userId, userName := f.userName, role := f.role,
    easeOfUse := f.easeOfUse, speed := f.speed, satisfaction := f.satisfaction,
    comments := f.comments, submittedAt := st.time }

/-- Concrete feedback submission by user 42. -/
def fb42 : FeedbackFields :=
  { userId := 42, userName := "J. Doe", role := "student", easeOfUse := 5,
    speed := 4, satisfaction := 5, comments := "ok" }

/-- Course fields whose units text is "0" (parses to 0, which is falsy). -/
def cf0 : CourseFields := { code := "CSC101", title := "Intro", units := "0", lecturerId := none }

/-- Course fields whose units text is "4". -/
def cf4 : CourseFields := { code := "MTH101", title := "Calc", units := "4", lecturerId := none }

/-! ### Generic list lemmas -/

theorem find?_append_singleton (p : α → Bool) (l : List α) (a : α)
    (hl : l.find? p = none) (ha : p a = true) : (l ++ [a]).find? p = some a := by
  induction l with
  | nil => simpa using List.find?_cons_of_pos ([] : List α) ha
  | cons x xs ih =>
    have hx : ¬ p x = true := by
      intro hx
      rw [List.find?_cons_of_pos _ hx] at hl
      exact Option.noConfusion hl
    rw [List.find?_cons_of_neg _ hx] at hl
    simp only [List.cons_append]
    rw [List.find?_cons_of_neg _ hx]
    exact ih hl

theorem updateFirst_length (p : α → Bool) (f : α → α) (l : List α) :
    (updateFirst p f l).length = l.length := by
  induction l with
  | nil => rfl
  | cons a as ih =>
    simp only [updateFirst]
    split <;> simp [ih]

theorem find?_updateFirst (p : α → Bool) (f : α → α) (l : List α) (a : α)
    (hfind : l.find? p = some a) (hf : p (f a) = true) :
    (updateFirst p f l).find? p = some (f a) := by
  induction l with
  | nil => simp at hfind
  | cons x xs ih =>
    by_cases hx : p x
    · rw [List.find?_cons_of_pos _ hx] at hfind
      cases hfind
      simp only [updateFirst, if_pos hx]
      exact List.find?_cons_of_pos _ hf
    · rw [List.find?_cons_of_neg _ hx] at hfind
      simp only [updateFirst, if_neg hx]
      rw [List.find?_cons_of_neg _ hx]
      exact ih hfind

theorem filter_eq_nil_of_find?_eq_none (p : α → Bool) (l : List α)
    (h : l.find? p = none) : l.filter p = [] :=
  List.filter_eq_nil_iff.2 (List.find?_eq_none.1 h)

/-! ### Claim theorems -/

/-- C4: `scoreToGrade` maps a score to 'A' iff it is ≥ 70, to 'B' iff it is in
[60,70), to 'C' iff in [50,60), to 'D' iff in [40,50), to 'F' iff < 40, and —
having no upper-bound check — maps every score above 100 to 'A'. -/
theorem scoreToGrade_breakpoints (s : ℚ) :
    (scoreToGrade s = "A" ↔ 70 ≤ s) ∧
    (scoreToGrade s = "B" ↔ 60 ≤ s ∧ s < 70) ∧
    (scoreToGrade s = "C" ↔ 50 ≤ s ∧ s < 60) ∧
    (scoreToGrade s = "D" ↔ 40 ≤ s ∧ s < 50) ∧
    (scoreToGrade s = "F" ↔ s < 40) ∧
    (100 < s → scoreToGrade s = "A") := by
  unfold scoreToGrade
  refine ⟨?_, ?_, ?_, ?_, ?_, ?_⟩ <;>
    split_ifs with h1 h2 h3 h4 <;>
    simp_all <;>
    (try constructor) <;> intros <;> linarith

/-- C4 witness: concrete instances of the breakpoint characterisation,
including a score above 100. -/
theorem scoreToGrade_breakpoints_witness :
    scoreToGrade 101 = "A" ∧ scoreToGrade 55 = "C" := by
  constructor
  · exact (scoreToGrade_breakpoints 101).2.2.2.2.2 (by norm_num)
  · exact (scoreToGrade_breakpoints 55).2.2.1.mpr (by norm_num)

/-! ### enroll lemmas (shared by C1 and C7) -/

theorem enroll_of_found (sid cid : Nat) (sem : String) (st : DBState) (e : Enrollment)
    (h : st.enrollments.find? (fun e => e.studentId == sid && e.courseId == cid) = some e) :
    enroll sid cid sem st = st := by
  unfold enroll
  rw [h]

theorem enroll_not_found (sid cid : Nat) (sem : String) (st : DBState)
    (hf : st.enrollments.find? (fun e => e.studentId == sid && e.courseId == cid) = none) :
    enroll sid cid sem st =
      { st with
          nextId := st.nextId + 1,
          enrollments := st.enrollments ++ [⟨st.nextId, sid, cid, sem, st.time⟩] } := by
  unfold enroll
  rw [hf]
  rfl

theorem enroll_count_one (sid cid : Nat) (sem : String) (st : DBState)
    (h : countEnrollments sid cid st ≤ 1) :
    countEnrollments sid cid (enroll sid cid sem st) = 1 := by
  cases hf : st.enrollments.find? (fun e => e.studentId == sid && e.courseId == cid) with
  | none =>
    rw [enroll_not_found sid cid sem st hf]
    simp only [countEnrollments, List.filter_append,
      filter_eq_nil_of_find?_eq_none _ _ hf]
    simp
  | some e =>
    rw [enroll_of_found sid cid sem st e hf]
    have hpe := List.find?_some (p := fun (e : Enrollment) => e.studentId == sid && e.courseId == cid) hf
    have hmem : e ∈ st.enrollments.filter (fun e => e.studentId == sid && e.courseId == cid) :=
      List.mem_filter.2 ⟨List.mem_of_find?_eq_some hf, hpe⟩
    have hpos : 1 ≤ countEnrollments sid cid st :=
      List.length_pos.2 (List.ne_nil_of_mem hmem)
    exact le_antisymm h hpos

theorem enroll_enroll (sid cid : Nat) (sem sem' : String) (st : DBState) :
    enroll sid cid sem' (enroll sid cid sem st) = enroll sid cid sem st := by
  cases hf : st.enrollments.find? (fun e => e.studentId == sid && e.courseId == cid) with
  | some e =>
    rw [enroll_of_found sid cid sem st e hf, enroll_of_found sid cid sem' st e hf]
  | none =>
    have hnew : ((⟨st.nextId, sid, cid, sem, st.time⟩ : Enrollment).studentId == sid &&
        (⟨st.nextId, sid, cid, sem, st.time⟩ : Enrollment).courseId == cid) = true := by simp
    refine enroll_of_found sid cid sem' _ ⟨st.nextId, sid, cid, sem, st.time⟩ ?_
    rw [enroll_not_found sid cid sem st hf]
    exact find?_append_singleton _ _ _ hf hnew

/-- C7: `enroll` is idempotent — starting from a state with at most one
Enrollment for the pair, any n ≥ 1 calls leave exactly one Enrollment record
for (studentId, courseId), and every call after the first is a no-op on the
whole state. -/
theorem enroll_idempotent (sid cid : Nat) (sem : String) (st : DBState)
    (h : countEnrollments sid cid st ≤ 1) :
    (∀ n : Nat,
      countEnrollments sid cid ((fun s => enroll sid cid sem s)^[n + 1] st) = 1) ∧
    enroll sid cid sem (enroll sid cid sem st) = enroll sid cid sem st := by
  have hfix : ∀ n : Nat,
      (fun s => enroll sid cid sem s)^[n + 1] st = enroll sid cid sem st := by
    intro n
    induction n with
    | zero => rfl
    | succ k ih =>
      rw [Function.iterate_succ_apply', ih, enroll_enroll]
  exact ⟨fun n => by rw [hfix n]; exact enroll_count_one sid cid sem st h,
    enroll_enroll sid cid sem sem st⟩

/-- C7 witness: enrolling student 5 in course 7 once on the empty database
yields exactly one Enrollment, and a repeated call changes nothing. -/
theorem enroll_idempotent_witness :
    countEnrollments 5 7 stEmpty ≤ 1 ∧
    countEnrollments 5 7 ((fun s => enroll 5 7 "2024/2025" s)^[1] stEmpty) = 1 ∧
    enroll 5 7 "2024/2025" (enroll 5 7 "2024/2025" stEmpty) = enroll 5 7 "2024/2025" stEmpty :=
  ⟨by decide,
   (enroll_idempotent 5 7 "2024/2025" stEmpty (by decide)).1 0,
   (enroll_idempotent 5 7 "2024/2025" stEmpty (by decide)).2⟩

/-- C3: evaluated on a student (id 200) and a lecturer (id 201) linked to a
user with id 100, `studentFullProfile`/`lecturerFullProfile` return merged
records whose `id` is the USER's id (100), because the user record is spread
last — contradicting the specified rule that the role-record's id wins, the
rule the source itself documents and follows in `allStudentsWithProfiles`. -/
theorem profile_id_collision_user_wins :
    (studentFullProfile 200 stProfiles).map (fun p => p.id) = some 100 ∧
    (lecturerFullProfile 201 stProfiles).map (fun p => p.id) = some 100 ∧
    (allStudentsWithProfiles stProfiles).map (fun p => p.id) = [200] ∧
    s200.id = 200 ∧ l201.id = 201 ∧ u100.id = 100 ∧ (200 : Nat) ≠ 100 := by
  decide

/-- C9 counterexample: `addCourse` with units text "0" — which parses to the
non-negative integer 0 — stores 3, not 0, because `parseInt(units)||3`
treats the parsed 0 as falsy. -/
theorem addCourse_zero_units_counterexample :
    jsParseInt "0" = some 0 ∧
    ((addCourse cf0 stEmpty).2.courses.map (fun c => c.units)) = [3] ∧
    ((3 : Int) ≠ 0) := by
  decide

/-- C9 (amended): for a non-duplicate code the stored course's units equals
the units value parsed as an integer whenever that parse yields a NONZERO
integer, and equals the default 3 when the value is unparseable OR parses
to 0. -/
theorem addCourse_units_amended (f : CourseFields) (st : DBState)
    (h : st.courses.find? (fun c => c.code == f.code) = none) :
    (addCourse f st).1 = .ok st.nextId ∧
    (addCourse f st).2.courses =
      st.courses ++ [⟨st.nextId, f.code, f.title, courseUnitsOf f.units, f.lecturerId⟩] ∧
    (∀ n : Int, jsParseInt f.units = some n → n ≠ 0 → courseUnitsOf f.units = n) ∧
    ((jsParseInt f.units = none ∨ jsParseInt f.units = some 0) → courseUnitsOf f.units = 3) := by
  refine ⟨?_, ?_, ?_, ?_⟩
  · unfold addCourse
    rw [h]
    rfl
  · unfold addCourse
    rw [h]
    rfl
  · intro n hn hne
    unfold courseUnitsOf
    rw [hn]
    simp [hne]
  · intro hcase
    unfold courseUnitsOf
    rcases hcase with hn | hn <;> rw [hn] <;> simp

/-- C9 witness: adding a course with units text "4" to the empty database
succeeds and stores 4 units. -/
theorem addCourse_units_amended_witness :
    stEmpty.courses.find? (fun c => c.code == cf4.code) = none ∧
    (addCourse cf4 stEmpty).2.courses =
      stEmpty.courses ++ [⟨stEmpty.nextId, cf4.code, cf4.title, courseUnitsOf cf4.units, cf4.lecturerId⟩] ∧
    courseUnitsOf cf4.units = 4 :=
  ⟨by decide, (addCourse_units_amended cf4 stEmpty (by decide)).2.1, by decide⟩

/-! ### Projection lemmas for the upsertResult pipeline -/

theorem addAuditEntry_results (a : Nat) (n : String) (sid cid : Nat) (og ng r : String)
    (st : DBState) : (addAuditEntry a n sid cid og ng r st).results = st.results := rfl

theorem addAuditEntry_enrollments (a : Nat) (n : String) (sid cid : Nat) (og ng r : String)
    (st : DBState) : (addAuditEntry a n sid cid og ng r st).enrollments = st.enrollments := rfl

theorem addAuditEntry_auditTrail (a : Nat) (n : String) (sid cid : Nat) (og ng r : String)
    (st : DBState) : (addAuditEntry a n sid cid og ng r st).auditTrail =
      st.auditTrail ++ [⟨st.nextId, st.time, a, n, sid, cid, og, ng, r⟩] := rfl

theorem addAuditEntry_nextId (a : Nat) (n : String) (sid cid : Nat) (og ng r : String)
    (st : DBState) : (addAuditEntry a n sid cid og ng r st).nextId = st.nextId + 1 := rfl

theorem addAuditEntry_time (a : Nat) (n : String) (sid cid : Nat) (og ng r : String)
    (st : DBState) : (addAuditEntry a n sid cid og ng r st).time = st.time := rfl

theorem enroll_results (sid cid : Nat) (sem : String) (st : DBState) :
    (enroll sid cid sem st).results = st.results := by
  cases hf : st.enrollments.find? (fun e => e.studentId == sid && e.courseId == cid) with
  | some e => rw [enroll_of_found sid cid sem st e hf]
  | none => rw [enroll_not_found sid cid sem st hf]

theorem enroll_auditTrail (sid cid : Nat) (sem : String) (st : DBState) :
    (enroll sid cid sem st).auditTrail = st.auditTrail := by
  cases hf : st.enrollments.find? (fun e => e.studentId == sid && e.courseId == cid) with
  | some e => rw [enroll_of_found sid cid sem st e hf]
  | none => rw [enroll_not_found sid cid sem st hf]

theorem enroll_time (sid cid : Nat) (sem : String) (st : DBState) :
    (enroll sid cid sem st).time = st.time := by
  cases hf : st.enrollments.find? (fun e => e.studentId == sid && e.courseId == cid) with
  | some e => rw [enroll_of_found sid cid sem st e hf]
  | none => rw [enroll_not_found sid cid sem st hf]

/-- C6: `addStudent` fails with the duplicate-username error when the username
is taken, fails with the duplicate-matric error when the matric is taken, and
in both failure cases leaves the database untouched (both checks run before
any write, so there is no partial insert); otherwise it appends exactly one
User with role "student" and one linked Student and returns the new student
id. -/
theorem addStudent_behavior (f : StudentFields) (st : DBState) :
    ((∃ u ∈ st.users, u.username = f.username) →
      addStudent f st = (.error "Username already exists.", st)) ∧
    ((∀ u ∈ st.users, u.username ≠ f.username) →
     (∃ s ∈ st.students, s.matric = f.matric) →
      addStudent f st = (.error "Matric number already exists.", st)) ∧
    ((∀ u ∈ st.users, u.username ≠ f.username) →
     (∀ s ∈ st.students, s.matric ≠ f.matric) →
      ∃ (nu : User) (ns : Student),
        addStudent f st =
          (.ok ns.id,
            { st with
                nextId := st.nextId + 2,
                users := st.users ++ [nu],
                students := st.students ++ [ns] }) ∧
        nu.id = st.nextId ∧ nu.role = "student" ∧ nu.username = f.username ∧
        ns.id = st.nextId + 1 ∧ ns.userId = nu.id ∧ ns.matric = f.matric) := by
  have husers : (st.users.find? (fun u => u.username == f.username)).isSome ↔
      ∃ u ∈ st.users, u.username = f.username := by
    rw [List.find?_isSome]
    simp
  have hstud : (st.students.find? (fun s => s.matric == f.matric)).isSome ↔
      ∃ s ∈ st.students, s.matric = f.matric := by
    rw [List.find?_isSome]
    simp
  refine ⟨?_, ?_, ?_⟩
  · intro h
    unfold addStudent
    rw [if_pos (husers.2 h)]
  · intro hu h
    unfold addStudent
    rw [if_neg (fun hs => by
        obtain ⟨u, hmem, heq⟩ := husers.1 hs
        exact hu u hmem heq),
      if_pos (hstud.2 h)]
  · intro hu hs
    refine ⟨⟨st.nextId, f.username, f.password, "student", f.name,
        (if f.email = "" then f.username ++ "@noun.edu.ng" else f.email), f.phone, st.time⟩,
      ⟨st.nextId + 1, st.nextId, f.matric, f.department, f.level,
        (if f.studyCenter = "" then "Main Campus" else f.studyCenter)⟩,
      ?_, rfl, rfl, rfl, rfl, rfl, rfl⟩
    unfold addStudent
    rw [if_neg (fun h => by
        obtain ⟨u, hmem, heq⟩ := husers.1 h
        exact hu u hmem heq),
      if_neg (fun h => by
        obtain ⟨x, hmem, heq⟩ := hstud.1 h
        exact hs x hmem heq)]
    rfl

/-- C6 witness: on a database whose only user is named "jdoe", adding a
student with the same username fails and leaves the state unchanged, while
adding one with a fresh username and matric succeeds. -/
theorem addStudent_behavior_witness :
    (∃ u ∈ stProfiles.users, u.username = "jdoe") ∧
    addStudent
      { name := "X", username := "jdoe", password := "p", email := "", phone := "",
        matric := "NOU999", department := "CS", level := "100", studyCenter := "" }
      stProfiles = (.error "Username already exists.", stProfiles) :=
  ⟨by decide,
   (addStudent_behavior
      { name := "X", username := "jdoe", password := "p", email := "", phone := "",
        matric := "NOU999", department := "CS", level := "100", studyCenter := "" }
      stProfiles).1 (by decide)⟩

theorem upsertResult_not_found (sid cid : Nat) (score : ℚ) (actor : User) (st : DBState)
    (hres : st.results.find? (fun r => r.studentId == sid && r.courseId == cid) = none) :
    upsertResult sid cid score actor st =
      addAuditEntry actor.id actor.name sid cid "—" (scoreToGrade score) "Result entered"
        (enroll sid cid "2024/2025"
          { st with
              nextId := st.nextId + 1,
              results := st.results ++
                [⟨st.nextId, sid, cid, score, scoreToGrade score, "2024/2025",
                  st.time, actor.name⟩] }) := by
  unfold upsertResult
  rw [hres]
  rfl

/-- C1: `upsertResult` on a pair with no prior Result appends exactly one new
Result carrying the given score and its derived grade, leaves exactly one
Enrollment for the pair (creating it if absent), and appends exactly one
AuditEntry with oldGrade "—", newGrade the derived grade, and reason
"Result entered". -/
theorem upsertResult_new (sid cid : Nat) (score : ℚ) (actor : User) (st : DBState)
    (hres : st.results.find? (fun r => r.studentId == sid && r.courseId == cid) = none)
    (henr : countEnrollments sid cid st ≤ 1) :
    (upsertResult sid cid score actor st).results.filter
        (fun r => r.studentId == sid && r.courseId == cid) =
      [⟨st.nextId, sid, cid, score, scoreToGrade score, "2024/2025", st.time, actor.name⟩] ∧
    countEnrollments sid cid (upsertResult sid cid score actor st) = 1 ∧
    ∃ e : AuditEntry,
      (upsertResult sid cid score actor st).auditTrail = st.auditTrail ++ [e] ∧
      e.oldGrade = "—" ∧ e.newGrade = scoreToGrade score ∧ e.reason = "Result entered" := by
  rw [upsertResult_not_found sid cid score actor st hres]
  refine ⟨?_, ?_, ?_⟩
  · rw [addAuditEntry_results, enroll_results]
    show (st.results ++
        [(⟨st.nextId, sid, cid, score, scoreToGrade score, "2024/2025",
          st.time, actor.name⟩ : Result)]).filter _ = _
    rw [List.filter_append, filter_eq_nil_of_find?_eq_none _ _ hres]
    simp
  · have hcong : countEnrollments sid cid
        (addAuditEntry actor.id actor.name sid cid "—" (scoreToGrade score) "Result entered"
          (enroll sid cid "2024/2025"
            { st with
                nextId := st.nextId + 1,
                results := st.results ++
                  [⟨st.nextId, sid, cid, score, scoreToGrade score, "2024/2025",
                    st.time, actor.name⟩] })) =
        countEnrollments sid cid
          (enroll sid cid "2024/2025"
            { st with
                nextId := st.nextId + 1,
                results := st.results ++
                  [⟨st.nextId, sid, cid, score, scoreToGrade score, "2024/2025",
                    st.time, actor.name⟩] }) := by
      unfold countEnrollments
      rw [addAuditEntry_enrollments]
    rw [hcong]
    exact enroll_count_one sid cid "2024/2025" _ henr
  · refine ⟨⟨(enroll sid cid "2024/2025"
        { st with
            nextId := st.nextId + 1,
            results := st.results ++
              [⟨st.nextId, sid, cid, score, scoreToGrade score, "2024/2025",
                st.time, actor.name⟩] }).nextId, st.time, actor.id, actor.name, sid, cid,
        "—", scoreToGrade score, "Result entered"⟩, ?_, rfl, rfl, rfl⟩
    rw [addAuditEntry_auditTrail, enroll_auditTrail, enroll_time]

/-- C1 witness: entering score 55 for the not-yet-graded, not-yet-enrolled
pair (5, 7) on the empty database leaves exactly one Enrollment for it. -/
theorem upsertResult_new_witness :
    stEmpty.results.find? (fun r => r.studentId == 5 && r.courseId == 7) = none ∧
    countEnrollments 5 7 stEmpty ≤ 1 ∧
    countEnrollments 5 7 (upsertResult 5 7 55 actorA stEmpty) = 1 :=
  ⟨by decide, by decide,
   (upsertResult_new 5 7 55 actorA stEmpty (by decide) (by decide)).2.1⟩

theorem upsertResult_found (sid cid : Nat) (score : ℚ) (actor : User) (st : DBState)
    (r0 : Result)
    (hfind : st.results.find? (fun r => r.studentId == sid && r.courseId == cid) = some r0) :
    upsertResult sid cid score actor st =
      addAuditEntry actor.id actor.name sid cid r0.grade (scoreToGrade score) "Grade updated"
        { st with
            results :=
              updateFirst (fun r => r.studentId == sid && r.courseId == cid)
                (fun r =>
                  { r with
                      score := score, grade := scoreToGrade score,
                      updatedAt := st.time, updatedBy := actor.name })
                st.results } := by
  unfold upsertResult
  rw [hfind]

theorem upsertResult_found_length (sid cid : Nat) (score : ℚ) (actor : User) (st : DBState)
    (r0 : Result)
    (hfind : st.results.find? (fun r => r.studentId == sid && r.courseId == cid) = some r0) :
    (upsertResult sid cid score actor st).results.length = st.results.length := by
  rw [upsertResult_found sid cid score actor st r0 hfind, addAuditEntry_results]
  exact updateFirst_length _ _ st.results

theorem upsertResult_found_find? (sid cid : Nat) (score : ℚ) (actor : User) (st : DBState)
    (r0 : Result)
    (hfind : st.results.find? (fun r => r.studentId == sid && r.courseId == cid) = some r0) :
    (upsertResult sid cid score actor st).results.find?
        (fun r => r.studentId == sid && r.courseId == cid) =
      some { r0 with
               score := score, grade := scoreToGrade score,
               updatedAt := st.time, updatedBy := actor.name } := by
  have hp0 := List.find?_some
    (p := fun (r : Result) => r.studentId == sid && r.courseId == cid) hfind
  rw [upsertResult_found sid cid score actor st r0 hfind, addAuditEntry_results]
  exact find?_updateFirst _ _ st.results r0 hfind hp0

theorem upsertResult_found_nextId (sid cid : Nat) (score : ℚ) (actor : User) (st : DBState)
    (r0 : Result)
    (hfind : st.results.find? (fun r => r.studentId == sid && r.courseId == cid) = some r0) :
    (upsertResult sid cid score actor st).nextId = st.nextId + 1 := by
  rw [upsertResult_found sid cid score actor st r0 hfind]
  rfl

theorem upsertResult_found_time (sid cid : Nat) (score : ℚ) (actor : User) (st : DBState)
    (r0 : Result)
    (hfind : st.results.find? (fun r => r.studentId == sid && r.courseId == cid) = some r0) :
    (upsertResult sid cid score actor st).time = st.time := by
  rw [upsertResult_found sid cid score actor st r0 hfind]
  rfl

theorem upsertResult_found_audit (sid cid : Nat) (score : ℚ) (actor : User) (st : DBState)
    (r0 : Result)
    (hfind : st.results.find? (fun r => r.studentId == sid && r.courseId == cid) = some r0) :
    (upsertResult sid cid score actor st).auditTrail =
      st.auditTrail ++
        [⟨st.nextId, st.time, actor.id, actor.name, sid, cid, r0.grade, scoreToGrade score,
          "Grade updated"⟩] := by
  rw [upsertResult_found sid cid score actor st r0 hfind, addAuditEntry_auditTrail]

/-- C2: `upsertResult` on a pair with an existing Result updates that same
record in place (same id, new score, derived grade, updatedAt = the clock
reading, updatedBy = the actor's name), adds no Result, and appends exactly
one AuditEntry with oldGrade = the previous grade, newGrade = the derived
grade, reason "Grade updated"; two successive calls with the same score
append two audit entries, the second with oldGrade equal to the first's
newGrade. -/
theorem upsertResult_update (sid cid : Nat) (score : ℚ) (actor : User) (st : DBState)
    (r0 : Result)
    (hfind : st.results.find? (fun r => r.studentId == sid && r.courseId == cid) = some r0) :
    (upsertResult sid cid score actor st).results.length = st.results.length ∧
    (upsertResult sid cid score actor st).results.find?
        (fun r => r.studentId == sid && r.courseId == cid) =
      some { r0 with
               score := score, grade := scoreToGrade score,
               updatedAt := st.time, updatedBy := actor.name } ∧
    (upsertResult sid cid score actor st).auditTrail =
      st.auditTrail ++
        [⟨st.nextId, st.time, actor.id, actor.name, sid, cid, r0.grade, scoreToGrade score,
          "Grade updated"⟩] ∧
    (upsertResult sid cid score actor (upsertResult sid cid score actor st)).auditTrail =
      st.auditTrail ++
        [⟨st.nextId, st.time, actor.id, actor.name, sid, cid, r0.grade, scoreToGrade score,
          "Grade updated"⟩,
         ⟨st.nextId + 1, st.time, actor.id, actor.name, sid, cid, scoreToGrade score,
          scoreToGrade score, "Grade updated"⟩] := by
  refine ⟨upsertResult_found_length sid cid score actor st r0 hfind,
    upsertResult_found_find? sid cid score actor st r0 hfind,
    upsertResult_found_audit sid cid score actor st r0 hfind, ?_⟩
  have h2 := upsertResult_found_audit sid cid score actor (upsertResult sid cid score actor st)
    { r0 with
        score := score, grade := scoreToGrade score,
        updatedAt := st.time, updatedBy := actor.name }
    (upsertResult_found_find? sid cid score actor st r0 hfind)
  rw [h2, upsertResult_found_audit sid cid score actor st r0 hfind,
    upsertResult_found_nextId sid cid score actor st r0 hfind,
    upsertResult_found_time sid cid score actor st r0 hfind, List.append_assoc]
  rfl

/-- C2 witness: regrading student 1 in course 10 (whose Result exists in the
GPA example database) twice with score 55 appends the two expected audit
entries, the second's oldGrade being the first's newGrade. -/
theorem upsertResult_update_witness :
    stGPA.results.find? (fun r => r.studentId == 1 && r.courseId == 10) = some r20 ∧
    (upsertResult 1 10 55 actorA (upsertResult 1 10 55 actorA stGPA)).auditTrail =
      stGPA.auditTrail ++
        [⟨stGPA.nextId, stGPA.time, actorA.id, actorA.name, 1, 10, r20.grade,
          scoreToGrade 55, "Grade updated"⟩,
         ⟨stGPA.nextId + 1, stGPA.time, actorA.id, actorA.name, 1, 10, scoreToGrade 55,
          scoreToGrade 55, "Grade updated"⟩] :=
  ⟨rfl, (upsertResult_update 1 10 55 actorA stGPA r20 rfl).2.2.2⟩

/-! ### calcGPA lemmas -/

theorem foldl_pair_sum (f g : α → Int) (l : List α) (a b : Int) :
    l.foldl (fun (pu : Int × Int) r => (pu.1 + f r, pu.2 + g r)) (a, b) =
      (a + (l.map f).sum, b + (l.map g).sum) := by
  induction l generalizing a b with
  | nil => simp
  | cons x xs ih => simp [ih, add_assoc]

theorem calcGPA_eq (sid : Nat) (st : DBState) :
    calcGPA sid st =
      if getResultsForStudent sid st = [] then "0.00"
      else if totalUnits sid st = 0 then "0.00"
      else toFixed2 ((weightedPoints sid st : ℚ) / (totalUnits sid st : ℚ)) := by
  simp only [calcGPA]
  rw [foldl_pair_sum (fun r => gradePoints r.grade * resultUnits st r)
    (fun r => resultUnits st r) (getResultsForStudent sid st) 0 0]
  simp [List.isEmpty_iff, weightedPoints, totalUnits]

theorem toFixed2_21_5 : toFixed2 (21 / 5 : ℚ) = "4.20" := by
  have h1 : ((21:ℚ) / 5 ≥ 0) := by norm_num
  have h2 : ⌊(21 / 5 : ℚ) * 100 + 1 / 2⌋ = 420 := by norm_num [Int.floor_eq_iff]
  simp only [toFixed2, if_pos h1, h2]
  decide

theorem toFixed2_2 : toFixed2 (2 : ℚ) = "2.00" := by
  have h1 : ((2:ℚ) ≥ 0) := by norm_num
  have h2 : ⌊(2 : ℚ) * 100 + 1 / 2⌋ = 200 := by norm_num [Int.floor_eq_iff]
  simp only [toFixed2, if_pos h1, h2]
  decide

/-- C5: `calcGPA` returns the units-weighted average of grade points over the
student's results formatted to two decimals, "0.00" when the student has no
results, and "0.00" when the total units is zero despite results existing;
the worked example (3 units, A) and (2 units, C) yields "4.20". -/
theorem calcGPA_spec (sid : Nat) (st : DBState) :
    (getResultsForStudent sid st = [] → calcGPA sid st = "0.00") ∧
    (totalUnits sid st = 0 → calcGPA sid st = "0.00") ∧
    (totalUnits sid st ≠ 0 →
      calcGPA sid st = toFixed2 ((weightedPoints sid st : ℚ) / (totalUnits sid st : ℚ))) ∧
    calcGPA 1 stGPA = "4.20" := by
  refine ⟨?_, ?_, ?_, ?_⟩
  · intro h
    rw [calcGPA_eq, if_pos h]
  · intro h
    rw [calcGPA_eq]
    by_cases h1 : getResultsForStudent sid st = []
    · rw [if_pos h1]
    · rw [if_neg h1, if_pos h]
  · intro h
    have h1 : getResultsForStudent sid st ≠ [] := by
      intro hnil
      exact h (by simp [totalUnits, hnil])
    rw [calcGPA_eq, if_neg h1, if_neg h]
  · have h0 : calcGPA 1 stGPA = toFixed2 (((21 : Int) : ℚ) / ((5 : Int) : ℚ)) := rfl
    have h1 : (((21 : Int) : ℚ) / ((5 : Int) : ℚ)) = 21 / 5 := by norm_num
    rw [h0, h1, toFixed2_21_5]

/-- C5 witness: a student with no results gets GPA "0.00". -/
theorem calcGPA_spec_witness :
    getResultsForStudent 3 stEmpty = [] ∧ calcGPA 3 stEmpty = "0.00" :=
  ⟨rfl, (calcGPA_spec 3 stEmpty).1 rfl⟩

/-- C10: in `calcGPA`, a result whose courseId matches no course contributes
the fallback 3 units (it is neither skipped nor an error), and a result whose
grade letter is outside {A,B,C,D,F} contributes 0 grade points while its
units still count in the denominator — the mixed example (2 units, A) plus
(missing course, grade "X") yields (5*2+0*3)/(2+3) = 2, printed "2.00". -/
theorem calcGPA_fallbacks :
    (∀ (st : DBState) (r : Result), getCourseById r.courseId st = none →
      resultUnits st r = 3) ∧
    (∀ g : String, g ∉ (["A", "B", "C", "D", "F"] : List String) → gradePoints g = 0) ∧
    calcGPA 2 stMixed = "2.00" := by
  refine ⟨?_, ?_, ?_⟩
  · intro st r h
    unfold resultUnits
    rw [h]
  · intro g hg
    simp only [List.mem_cons, List.not_mem_nil, or_false] at hg
    push_neg at hg
    obtain ⟨h1, h2, h3, h4, h5⟩ := hg
    simp [gradePoints, h1, h2, h3, h4]
  · have h0 : calcGPA 2 stMixed = toFixed2 (((10 : Int) : ℚ) / ((5 : Int) : ℚ)) := rfl
    have h1 : (((10 : Int) : ℚ) / ((5 : Int) : ℚ)) = 2 := by norm_num
    rw [h0, h1, toFixed2_2]

/-- C10 witness: the dangling result r31 (courseId 99, grade "X") gets 3
fallback units and 0 grade points. -/
theorem calcGPA_fallbacks_witness :
    getCourseById r31.courseId stMixed = none ∧ resultUnits stMixed r31 = 3 ∧
    ("X" ∉ (["A", "B", "C", "D", "F"] : List String)) ∧ gradePoints "X" = 0 :=
  ⟨by decide, calcGPA_fallbacks.1 stMixed r31 (by decide), by decide,
   calcGPA_fallbacks.2.1 "X" (by decide)⟩

/-! ### findIdx? / set bridge lemmas -/

theorem findIdx?_le (p : α → Bool) :
    ∀ (l : List α) (i j : Nat), l.findIdx? p i = some j → i ≤ j := by
  intro l
  induction l with
  | nil => intro i j h; simp [List.findIdx?] at h
  | cons x xs ih =>
    intro i j h
    rw [List.findIdx?_cons] at h
    by_cases hx : p x
    · rw [if_pos hx] at h
      cases h
      exact le_refl _
    · rw [if_neg hx] at h
      exact le_trans (Nat.le_succ i) (ih (i + 1) j h)

theorem set_findIdx?_eq_updateFirst (p : α → Bool) (e : α) :
    ∀ (l : List α) (i j : Nat), l.findIdx? p i = some j →
      l.set (j - i) e = updateFirst p (fun _ => e) l := by
  intro l
  induction l with
  | nil => intro i j h; simp [List.findIdx?] at h
  | cons x xs ih =>
    intro i j h
    rw [List.findIdx?_cons] at h
    by_cases hx : p x
    · rw [if_pos hx] at h
      cases h
      rw [Nat.sub_self]
      simp [updateFirst, hx]
    · rw [if_neg hx] at h
      have hij := findIdx?_le p xs (i + 1) j h
      have hsub : j - i = (j - (i + 1)) + 1 := by omega
      rw [hsub, List.set_cons_succ, ih (i + 1) j h]
      simp [updateFirst, hx]

theorem not_mem_of_findIdx?_eq_none (p : α → Bool) :
    ∀ (l : List α) (i : Nat), l.findIdx? p i = none → ∀ a ∈ l, ¬ p a = true := by
  intro l
  induction l with
  | nil => intro i h a ha; simp at ha
  | cons x xs ih =>
    intro i h a ha
    rw [List.findIdx?_cons] at h
    by_cases hx : p x
    · rw [if_pos hx] at h
      exact Option.noConfusion h
    · rw [if_neg hx] at h
      rcases List.mem_cons.1 ha with rfl | hmem
      · exact hx
      · exact ih (i + 1) h a hmem

theorem exists_of_findIdx?_eq_some (p : α → Bool) :
    ∀ (l : List α) (i j : Nat), l.findIdx? p i = some j → ∃ a ∈ l, p a = true := by
  intro l
  induction l with
  | nil => intro i j h; simp [List.findIdx?] at h
  | cons x xs ih =>
    intro i j h
    rw [List.findIdx?_cons] at h
    by_cases hx : p x
    · exact ⟨x, List.mem_cons_self x xs, hx⟩
    · rw [if_neg hx] at h
      obtain ⟨a, hmem, hpa⟩ := ih (i + 1) j h
      exact ⟨a, List.mem_cons_of_mem x hmem, hpa⟩

theorem filter_updateFirst_single (p : α → Bool) (e : α) (hpe : p e = true) :
    ∀ l : List α, (∃ a ∈ l, p a = true) → (l.filter p).length ≤ 1 →
      (updateFirst p (fun _ => e) l).filter p = [e] := by
  intro l
  induction l with
  | nil =>
    rintro ⟨a, ha, -⟩
    simp at ha
  | cons x xs ih =>
    intro hex hlen
    by_cases hx : p x
    · simp only [updateFirst, if_pos hx]
      rw [List.filter_cons_of_pos hpe]
      rw [List.filter_cons_of_pos hx] at hlen
      have : (xs.filter p).length = 0 := by simpa using hlen
      rw [List.length_eq_zero.mp this]
    · simp only [updateFirst, if_neg hx]
      rw [List.filter_cons_of_neg hx]
      rw [List.filter_cons_of_neg hx] at hlen
      obtain ⟨a, hmem, hpa⟩ := hex
      rcases List.mem_cons.1 hmem with rfl | hmem
      · exact absurd hpa hx
      · exact ih ⟨a, hmem, hpa⟩ hlen

theorem filter_updateFirst_other (p q : α → Bool) (e : α)
    (hq : ∀ a, p a = true → q a = false) (hqe : q e = false) :
    ∀ l : List α, (updateFirst p (fun _ => e) l).filter q = l.filter q := by
  intro l
  induction l with
  | nil => rfl
  | cons x xs ih =>
    by_cases hx : p x
    · simp only [updateFirst, if_pos hx]
      rw [List.filter_cons_of_neg (by simp [hqe]),
        List.filter_cons_of_neg (by simp [hq x hx])]
    · simp only [updateFirst, if_neg hx]
      rw [List.filter_cons, List.filter_cons, ih]

/-- C8: `submitFeedback` preserves the at-most-one-feedback-per-user
invariant — starting from a state with at most one record for the caller's
userId, afterwards the collection holds exactly one record for that userId,
namely a brand-new entry with the call's values and a freshly generated id
(the previous record is fully replaced), while the records of every other
userId are untouched. -/
theorem submitFeedback_unique (f : FeedbackFields) (st : DBState)
    (h : (st.feedback.filter (fun fb => fb.userId == f.userId)).length ≤ 1) :
    (submitFeedback f st).feedback.filter (fun fb => fb.userId == f.userId) =
      [feedbackEntry f st] ∧
    ∀ u : Nat, u ≠ f.userId →
      (submitFeedback f st).feedback.filter (fun fb => fb.userId == u) =
        st.feedback.filter (fun fb => fb.userId == u) := by
  have hpe : ((feedbackEntry f st).userId == f.userId) = true := by
    simp [feedbackEntry]
  cases hidx : st.feedback.findIdx? (fun fb => fb.userId == f.userId) with
  | none =>
    have hfb : (submitFeedback f st).feedback = st.feedback ++ [feedbackEntry f st] := by
      unfold submitFeedback
      rw [hidx]
      rfl
    have hnone := not_mem_of_findIdx?_eq_none _ st.feedback 0 hidx
    constructor
    · rw [hfb, List.filter_append, List.filter_eq_nil_iff.2 hnone, List.nil_append]
      simp [feedbackEntry]
    · intro u hu
      have hne : (f.userId == u) = false := by
        rw [beq_eq_false_iff_ne]
        exact fun heq => hu heq.symm
      rw [hfb, List.filter_append]
      simp [feedbackEntry, hne]
  | some i =>
    have hfb : (submitFeedback f st).feedback = st.feedback.set i (feedbackEntry f st) := by
      unfold submitFeedback
      rw [hidx]
      rfl
    have hset : st.feedback.set i (feedbackEntry f st) =
        updateFirst (fun fb => fb.userId == f.userId) (fun _ => feedbackEntry f st)
          st.feedback := by
      have hbr := set_findIdx?_eq_updateFirst (fun fb => fb.userId == f.userId)
        (feedbackEntry f st) st.feedback 0 i hidx
      simpa using hbr
    have hex := exists_of_findIdx?_eq_some _ st.feedback 0 i hidx
    constructor
    · rw [hfb, hset]
      exact filter_updateFirst_single (fun fb => fb.userId == f.userId)
        (feedbackEntry f st) hpe st.feedback hex h
    · intro u hu
      rw [hfb, hset]
      refine filter_updateFirst_other _ _ _ ?_ ?_ st.feedback
      · intro a ha
        have ha' : a.userId = f.userId := by simpa using ha
        rw [ha']
        simp
        exact fun heq => hu heq.symm
      · simp [feedbackEntry]
        exact fun heq => hu heq.symm

/-- C8 witness: user 42's first feedback on the empty database yields exactly
one record for userId 42, holding the submitted values and the fresh id 0. -/
theorem submitFeedback_unique_witness :
    (stEmpty.feedback.filter (fun fb => fb.userId == fb42.userId)).length ≤ 1 ∧
    (submitFeedback fb42 stEmpty).feedback.filter (fun fb => fb.userId == fb42.userId) =
      [feedbackEntry fb42 stEmpty] :=
  ⟨by decide, (submitFeedback_unique fb42 stEmpty (by decide)).1⟩

end NounDB
